import Mathlib

/-!
# Verification of the `eth_arp_dpi` TAP/DPI bridge (`src/sw/eth_dpi.c`)

Shallow embedding of the bridging program.  External effects (the TAP file
descriptor, the DPI mailbox of the simulator, `select`, `read`, `write`)
are modelled by an environment oracle that supplies the result of every
external call, and the program is a function from that oracle to the trace
of calls it performs plus a termination outcome.  Machine `int` values are
embedded as `Int`; the global `uint8_t buffer[MTU_SIZE]` is embedded as a
total function `Nat → Nat` (the C array has capacity `MTU_SIZE = 1500`;
an access at index ≥ 1500 is out of bounds in the C program, which the
embedding records by the index appearing in the trace).
-/

namespace EthDpi

/-- `#define MTU_SIZE (1500)` -/
def MTU_SIZE : Nat := 1500

/-- Linux `errno` value for an interrupted system call. -/
def EINTR : Nat := 4

/-- Linux `errno` value for "resource temporarily unavailable". -/
def EAGAIN : Nat := 11

/-- `char tap_name[IFNAMSIZ] = "tap0";` -/
def tap_name : String := "tap0"

/-- One observable external call made by the program, in program order. -/
inductive Event where
  /-- `open("/dev/net/tun", O_RDWR)` -/
  | openTun : Event
  /-- `ioctl(tap_fd, TUNSETIFF, &ifr)` with `ifr.ifr_name` holding the given name -/
  | setIff (name : String) : Event
  /-- the `fcntl` pair that switches the descriptor to non-blocking mode -/
  | setNonblock : Event
  /-- `host_delay(nclk)` -/
  | hostDelay (nclk : Int) : Event
  /-- `select(tap_fd + 1, &rd_set, NULL, NULL, &timeout)` with zero timeout -/
  | selectPoll : Event
  /-- `read(tap_fd, &buffer[0], n)` inside `fd_read`, requesting `n` bytes -/
  | readCall (n : Nat) : Event
  /-- `host_tx_data_push(b)` -/
  | txPush (b : Nat) : Event
  /-- `host_tx_transfer_init()` -/
  | txInit : Event
  /-- `host_rx_pkt_valid(&npkt)` -/
  | rxValid : Event
  /-- `host_rx_pkt_pull(&pkt_len)` -/
  | rxPull : Event
  /-- `host_rx_pkt_get_data(&buffer[i], i)` at index `i` -/
  | rxGet (i : Nat) : Event
  /-- `write(tap_fd, &buffer[0], n)` inside `fd_write`, requesting `n` bytes -/
  | writeCall (n : Int) : Event
  /-- `close(tap_fd)` -/
  | closeFd : Event
  /-- the `printf("HOST: !!! Bad packet !!!...")` diagnostic -/
  | logBadPacket (n : Int) : Event
  /-- the `perror` diagnostic printed by `fd_read` / `fd_write` before `exit(1)` -/
  | perrorExit : Event
  /-- any other `printf` diagnostic of the program -/
  | logInfo : Event
deriving DecidableEq, Repr

/-- Oracle for one iteration of the main loop: the values the kernel and the
DPI mailbox return to each external call that the iteration may make. -/
structure IterEnv where
  /-- return value of `select` -/
  selRet : Int
  /-- `errno` observed when `select` returned a negative value -/
  selErrno : Nat
  /-- return value of `read` when the descriptor was reported readable -/
  readRet : Int
  /-- bytes the successful `read` deposits in `buffer[0..readRet)` -/
  readBytes : Nat → Nat
  /-- value stored in `npkt` by `host_rx_pkt_valid` -/
  npkt : Int
  /-- value stored in `pkt_len` by `host_rx_pkt_pull` -/
  pktLen : Int
  /-- byte stored by `host_rx_pkt_get_data` at each index -/
  rxData : Nat → Nat
  /-- return value of `write` -/
  writeRet : Int

/-- Oracle for a whole run: startup results plus one `IterEnv` per loop pass. -/
structure Env where
  /-- return value of `open("/dev/net/tun", O_RDWR)`, i.e. `tap_fd` -/
  openRet : Int
  /-- return value of `ioctl(tap_fd, TUNSETIFF, &ifr)` -/
  ioctlRet : Int

/-- How one pass of `while (1)` ends. -/
inductive IterOut where
  /-- fall through to the next iteration, carrying the (possibly updated) buffer -/
  | next (buf : Nat → Nat) : IterOut
  /-- `return code;` out of `eth_dpi_main` -/
  | ret (code : Int) : IterOut
  /-- `exit(1)` performed inside `fd_read` / `fd_write` -/
  | exitProc (code : Nat) : IterOut

/-- How the whole (fuel-bounded) run ends. -/
inductive Outcome where
  /-- `eth_dpi_main` returned this code -/
  | ret (code : Int) : Outcome
  /-- the process called `exit` with this code -/
  | exitProc (code : Nat) : Outcome
  /-- the loop was still running when the supplied iteration oracles ran out -/
  | running : Outcome
deriving DecidableEq, Repr

/-- Embedding of `fd_read`: the underlying `read` returned `nread`; a negative
result makes `fd_read` print a diagnostic and call `exit(1)` (`none`),
otherwise the count is returned unchanged. -/
def fd_read (nread : Int) : Option Int :=
  if nread < 0 then none else some nread

/-- Embedding of `fd_write`: the underlying `write` returned `nwrite`; a
negative result makes `fd_write` print a diagnostic and call `exit(1)`
(`none`), otherwise the count is returned unchanged. -/
def fd_write (nwrite : Int) : Option Int :=
  if nwrite < 0 then none else some nwrite

/-- The buffer after `read` deposited `n` bytes `data 0, …, data (n-1)` into
`buffer[0..n)`; bytes beyond `n` keep their previous value. -/
def writeBuf (buf : Nat → Nat) (n : Nat) (data : Nat → Nat) : Nat → Nat :=
  fun i => if i < n then data i else buf i

/-- The outbound half of an iteration body, entered when `FD_ISSET` held:
`fd_read` into the buffer and, for a non-zero count, push every byte to the
TX queue and start the transfer; a zero count only logs a bad packet. -/
def outboundPhase (e : IterEnv) (buf : Nat → Nat) :
    List Event × Option (Nat → Nat) :=
  match fd_read e.readRet with
  | none => ([Event.readCall MTU_SIZE, Event.perrorExit], none)
  | some nbytes =>
    let n := nbytes.toNat
    let buf' := writeBuf buf n e.readBytes
    if nbytes ≠ 0 then
      (Event.readCall MTU_SIZE :: Event.logInfo ::
        (List.range n).map (fun i => Event.txPush (buf' i)) ++ [Event.txInit],
       some buf')
    else
      ([Event.readCall MTU_SIZE, Event.logBadPacket nbytes], some buf')

/-- The inbound half of an iteration body: query the mailbox and, when a
packet is pending, pull its length, fetch its bytes into the buffer by
index, and write it to the TAP descriptor with `fd_write`. -/
def inboundPhase (e : IterEnv) (buf : Nat → Nat) :
    List Event × Option (Nat → Nat) :=
  if e.npkt > 0 then
    let len := e.pktLen.toNat
    let buf' := writeBuf buf len e.rxData
    let evs := Event.rxValid :: Event.rxPull :: Event.logInfo ::
      (List.range len).map Event.rxGet ++ [Event.writeCall e.pktLen]
    match fd_write e.writeRet with
    | none => (evs ++ [Event.perrorExit], none)
    | some _ => (evs, some buf')
  else
    ([Event.rxValid], some buf)

/-- One full pass of the `while (1)` body: apply the HDL delay, poll with
`select`, handle a poll failure (`EINTR`/`EAGAIN` restart the loop, anything
else closes the descriptor and returns `-5`), then run the outbound phase if
the descriptor is readable and the inbound phase unconditionally. -/
def iterBridge (e : IterEnv) (buf : Nat → Nat) : List Event × IterOut :=
  let pre := [Event.hostDelay 1000, Event.selectPoll]
  if e.selRet < 0 then
    if e.selErrno = EINTR then (pre, IterOut.next buf)
    else if e.selErrno = EAGAIN then (pre, IterOut.next buf)
    else (pre ++ [Event.logInfo, Event.closeFd], IterOut.ret (-5))
  else
    let (outEvs, outRes) :=
      if e.selRet > 0 then outboundPhase e buf else ([], some buf)
    match outRes with
    | none => (pre ++ outEvs, IterOut.exitProc 1)
    | some buf1 =>
      let (inEvs, inRes) := inboundPhase e buf1
      match inRes with
      | none => (pre ++ outEvs ++ inEvs, IterOut.exitProc 1)
      | some buf2 => (pre ++ outEvs ++ inEvs, IterOut.next buf2)

/-- The main loop, driven by one `IterEnv` per pass; when the list of
iteration oracles is exhausted the loop is still `running` (the C loop
itself never exits normally). -/
def runLoop (buf : Nat → Nat) : List IterEnv → List Event × Outcome
  | [] => ([], Outcome.running)
  | e :: rest =>
    match iterBridge e buf with
    | (evs, IterOut.next buf') =>
      let (evs', out) := runLoop buf' rest
      (evs ++ evs', out)
    | (evs, IterOut.ret c) => (evs, Outcome.ret c)
    | (evs, IterOut.exitProc c) => (evs, Outcome.exitProc c)

/-- The zero-initialised global `uint8_t buffer[MTU_SIZE]`. -/
def buffer0 : Nat → Nat := fun _ => 0

/-- Embedding of `eth_dpi_main(argc, argv)`: open the TAP device (failure
returns `-1`), configure the interface name `tap0` with `ioctl` (failure
closes the descriptor and returns `-2`), switch to non-blocking mode and
enter the main loop.  `argc` and `argv` are parameters of the C function
and appear here untouched, exactly as in the source. -/
def eth_dpi_main (argc : Int) (argv : List String) (env : Env)
    (iters : List IterEnv) : List Event × Outcome :=
  if env.openRet < 0 then
    ([Event.openTun, Event.logInfo], Outcome.ret (-1))
  else if env.ioctlRet < 0 then
    ([Event.openTun, Event.setIff tap_name, Event.logInfo, Event.closeFd],
     Outcome.ret (-2))
  else
    let (evs, out) := runLoop buffer0 iters
    ([Event.openTun, Event.setIff tap_name, Event.logInfo,
      Event.setNonblock] ++ evs, out)

/-- Recogniser for `host_tx_data_push` events. -/
def Event.isTxPush : Event → Bool
  | Event.txPush _ => true
  | _ => false

/-- Recogniser for `host_rx_pkt_get_data` events. -/
def Event.isRxGet : Event → Bool
  | Event.rxGet _ => true
  | _ => false

/-! ### Branch-shape lemmas for the two phases and the iteration body -/

lemma map_txPush_writeBuf (buf d : Nat → Nat) (n : Nat) :
    (List.range n).map (fun i => Event.txPush (writeBuf buf n d i)) =
    (List.range n).map (fun i => Event.txPush (d i)) := by
  apply List.map_congr_left
  intro a ha
  simp only [List.mem_range] at ha
  simp [writeBuf, ha]

lemma outboundPhase_neg (e : IterEnv) (buf : Nat → Nat) (h : e.readRet < 0) :
    outboundPhase e buf = ([Event.readCall MTU_SIZE, Event.perrorExit], none) := by
  simp [outboundPhase, fd_read, h]

lemma outboundPhase_zero (e : IterEnv) (buf : Nat → Nat) (h : e.readRet = 0) :
    outboundPhase e buf =
      ([Event.readCall MTU_SIZE, Event.logBadPacket 0],
       some (writeBuf buf 0 e.readBytes)) := by
  simp [outboundPhase, fd_read, h]

lemma outboundPhase_pos (e : IterEnv) (buf : Nat → Nat) (h : 0 < e.readRet) :
    outboundPhase e buf =
      (Event.readCall MTU_SIZE :: Event.logInfo ::
         ((List.range e.readRet.toNat).map (fun i => Event.txPush (e.readBytes i)) ++
           [Event.txInit]),
       some (writeBuf buf e.readRet.toNat e.readBytes)) := by
  have h1 : ¬ e.readRet < 0 := by omega
  have h2 : e.readRet ≠ 0 := by omega
  simp [outboundPhase, fd_read, h1, h2, map_txPush_writeBuf]

lemma inboundPhase_empty (e : IterEnv) (buf : Nat → Nat) (h : ¬ e.npkt > 0) :
    inboundPhase e buf = ([Event.rxValid], some buf) := by
  simp [inboundPhase, h]

lemma inboundPhase_pkt (e : IterEnv) (buf : Nat → Nat) (h : e.npkt > 0)
    (hw : 0 ≤ e.writeRet) :
    inboundPhase e buf =
      (Event.rxValid :: Event.rxPull :: Event.logInfo ::
         ((List.range e.pktLen.toNat).map Event.rxGet ++ [Event.writeCall e.pktLen]),
       some (writeBuf buf e.pktLen.toNat e.rxData)) := by
  have hw' : ¬ e.writeRet < 0 := by omega
  simp [inboundPhase, fd_write, h, hw']

lemma inboundPhase_wfail (e : IterEnv) (buf : Nat → Nat) (h : e.npkt > 0)
    (hw : e.writeRet < 0) :
    inboundPhase e buf =
      ((Event.rxValid :: Event.rxPull :: Event.logInfo ::
         ((List.range e.pktLen.toNat).map Event.rxGet ++ [Event.writeCall e.pktLen])) ++
         [Event.perrorExit], none) := by
  simp [inboundPhase, fd_write, h, hw]

lemma iterBridge_transient (e : IterEnv) (buf : Nat → Nat) (hs : e.selRet < 0)
    (he : e.selErrno = EINTR ∨ e.selErrno = EAGAIN) :
    iterBridge e buf = ([Event.hostDelay 1000, Event.selectPoll], IterOut.next buf) := by
  rcases he with h | h <;> simp [iterBridge, hs, h, EINTR, EAGAIN]

lemma iterBridge_pollFatal (e : IterEnv) (buf : Nat → Nat) (hs : e.selRet < 0)
    (h1 : e.selErrno ≠ EINTR) (h2 : e.selErrno ≠ EAGAIN) :
    iterBridge e buf =
      ([Event.hostDelay 1000, Event.selectPoll, Event.logInfo, Event.closeFd],
       IterOut.ret (-5)) := by
  simp [iterBridge, hs, h1, h2]

lemma iterBridge_ok (e : IterEnv) (buf buf1 buf2 : Nat → Nat) (oevs ievs : List Event)
    (hs : ¬ e.selRet < 0)
    (hout : (if e.selRet > 0 then outboundPhase e buf else ([], some buf)) =
      (oevs, some buf1))
    (hin : inboundPhase e buf1 = (ievs, some buf2)) :
    iterBridge e buf =
      ([Event.hostDelay 1000, Event.selectPoll] ++ oevs ++ ievs, IterOut.next buf2) := by
  unfold iterBridge
  rw [if_neg hs, hout]
  dsimp only
  rw [hin]

lemma iterBridge_readExit (e : IterEnv) (buf : Nat → Nat) (hs : ¬ e.selRet < 0)
    (hpos : e.selRet > 0) (hr : e.readRet < 0) :
    iterBridge e buf =
      ([Event.hostDelay 1000, Event.selectPoll] ++
         [Event.readCall MTU_SIZE, Event.perrorExit], IterOut.exitProc 1) := by
  unfold iterBridge
  rw [if_neg hs, if_pos hpos, outboundPhase_neg e buf hr]

lemma iterBridge_writeExit (e : IterEnv) (buf buf1 : Nat → Nat) (oevs ievs : List Event)
    (hs : ¬ e.selRet < 0)
    (hout : (if e.selRet > 0 then outboundPhase e buf else ([], some buf)) =
      (oevs, some buf1))
    (hin : inboundPhase e buf1 = (ievs, none)) :
    iterBridge e buf =
      ([Event.hostDelay 1000, Event.selectPoll] ++ oevs ++ ievs, IterOut.exitProc 1) := by
  unfold iterBridge
  rw [if_neg hs, hout]
  dsimp only
  rw [hin]

/-! ### Which kinds of events each phase can emit -/

lemma closeFd_not_mem_outbound (e : IterEnv) (buf : Nat → Nat) :
    Event.closeFd ∉ (outboundPhase e buf).1 := by
  rcases lt_trichotomy e.readRet 0 with h | h | h
  · rw [outboundPhase_neg e buf h]; simp
  · rw [outboundPhase_zero e buf h]; simp
  · rw [outboundPhase_pos e buf h]; simp

lemma closeFd_not_mem_inbound (e : IterEnv) (buf : Nat → Nat) :
    Event.closeFd ∉ (inboundPhase e buf).1 := by
  by_cases h : e.npkt > 0
  · rcases le_or_lt 0 e.writeRet with hw | hw
    · rw [inboundPhase_pkt e buf h hw]; simp
    · rw [inboundPhase_wfail e buf h hw]; simp
  · rw [inboundPhase_empty e buf h]; simp

lemma rxPull_not_mem_outbound (e : IterEnv) (buf : Nat → Nat) :
    Event.rxPull ∉ (outboundPhase e buf).1 := by
  rcases lt_trichotomy e.readRet 0 with h | h | h
  · rw [outboundPhase_neg e buf h]; simp
  · rw [outboundPhase_zero e buf h]; simp
  · rw [outboundPhase_pos e buf h]; simp

lemma countP_isRxGet_outbound (e : IterEnv) (buf : Nat → Nat) :
    (outboundPhase e buf).1.countP Event.isRxGet = 0 := by
  rcases lt_trichotomy e.readRet 0 with h | h | h
  · rw [outboundPhase_neg e buf h]; simp [List.countP_cons, Event.isRxGet]
  · rw [outboundPhase_zero e buf h]; simp [List.countP_cons, Event.isRxGet]
  · rw [outboundPhase_pos e buf h]
    simp [List.countP_cons, List.countP_append, Event.isRxGet, List.countP_eq_zero]

lemma txInit_not_mem_inbound (e : IterEnv) (buf : Nat → Nat) :
    Event.txInit ∉ (inboundPhase e buf).1 := by
  by_cases h : e.npkt > 0
  · rcases le_or_lt 0 e.writeRet with hw | hw
    · rw [inboundPhase_pkt e buf h hw]; simp
    · rw [inboundPhase_wfail e buf h hw]; simp
  · rw [inboundPhase_empty e buf h]; simp

lemma countP_isTxPush_inbound (e : IterEnv) (buf : Nat → Nat) :
    (inboundPhase e buf).1.countP Event.isTxPush = 0 := by
  by_cases h : e.npkt > 0
  · rcases le_or_lt 0 e.writeRet with hw | hw
    · rw [inboundPhase_pkt e buf h hw]
      simp [List.countP_cons, List.countP_append, Event.isTxPush, List.countP_eq_zero]
    · rw [inboundPhase_wfail e buf h hw]
      simp [List.countP_cons, List.countP_append, Event.isTxPush, List.countP_eq_zero]
  · rw [inboundPhase_empty e buf h]; simp [List.countP_cons, Event.isTxPush]

/-! ### Classification of how one iteration can end -/

lemma iterBridge_shape (e : IterEnv) (buf : Nat → Nat) :
    (∃ b, (iterBridge e buf).2 = IterOut.next b ∧
       Event.closeFd ∉ (iterBridge e buf).1) ∨
    ((iterBridge e buf).2 = IterOut.ret (-5) ∧
       (iterBridge e buf).1.getLast? = some Event.closeFd) ∨
    ((iterBridge e buf).2 = IterOut.exitProc 1 ∧
       Event.closeFd ∉ (iterBridge e buf).1) := by
  by_cases hs : e.selRet < 0
  · by_cases h1 : e.selErrno = EINTR
    · left; exact ⟨buf, by rw [iterBridge_transient e buf hs (Or.inl h1)]; simp⟩
    · by_cases h2 : e.selErrno = EAGAIN
      · left; exact ⟨buf, by rw [iterBridge_transient e buf hs (Or.inr h2)]; simp⟩
      · right; left; rw [iterBridge_pollFatal e buf hs h1 h2]; simp
  · have houtShape : (if e.selRet > 0 then outboundPhase e buf else ([], some buf)) =
        (if e.selRet > 0 then outboundPhase e buf else ([], some buf)) := rfl
    by_cases hpos : e.selRet > 0
    · by_cases hr : e.readRet < 0
      · right; right; rw [iterBridge_readExit e buf hs hpos hr]; simp
      · have hout : (if e.selRet > 0 then outboundPhase e buf else ([], some buf)) =
            ((outboundPhase e buf).1, some ((outboundPhase e buf).2.getD buf)) := by
          rw [if_pos hpos]
          rcases lt_trichotomy e.readRet 0 with h | h | h
          · exact absurd h hr
          · rw [outboundPhase_zero e buf h]; rfl
          · rw [outboundPhase_pos e buf h]; rfl
        set buf1 := (outboundPhase e buf).2.getD buf with hbuf1
        by_cases hp : e.npkt > 0
        · rcases le_or_lt 0 e.writeRet with hw | hw
          · left
            refine ⟨writeBuf buf1 e.pktLen.toNat e.rxData, ?_⟩
            rw [iterBridge_ok e buf buf1 _ _ _ hs hout (inboundPhase_pkt e buf1 hp hw)]
            simp [closeFd_not_mem_outbound e buf]
          · right; right
            rw [iterBridge_writeExit e buf buf1 _ _ hs hout
              (inboundPhase_wfail e buf1 hp hw)]
            simp [closeFd_not_mem_outbound e buf]
        · left
          refine ⟨buf1, ?_⟩
          rw [iterBridge_ok e buf buf1 buf1 _ _ hs hout (inboundPhase_empty e buf1 hp)]
          simp [closeFd_not_mem_outbound e buf]
    · have hout : (if e.selRet > 0 then outboundPhase e buf else ([], some buf)) =
          ([], some buf) := if_neg hpos
      by_cases hp : e.npkt > 0
      · rcases le_or_lt 0 e.writeRet with hw | hw
        · left
          refine ⟨writeBuf buf e.pktLen.toNat e.rxData, ?_⟩
          rw [iterBridge_ok e buf buf _ _ _ hs hout (inboundPhase_pkt e buf hp hw)]
          simp
        · right; right
          rw [iterBridge_writeExit e buf buf _ _ hs hout (inboundPhase_wfail e buf hp hw)]
          simp
      · left
        refine ⟨buf, ?_⟩
        rw [iterBridge_ok e buf buf buf _ _ hs hout (inboundPhase_empty e buf hp)]
        simp

/-! ### Lifting the classification through the main loop and through startup -/

lemma runLoop_ret_inv (l : List IterEnv) :
    ∀ (buf : Nat → Nat) (c : Int), (runLoop buf l).2 = Outcome.ret c →
      c = -5 ∧ (runLoop buf l).1.getLast? = some Event.closeFd := by
  induction l with
  | nil => intro buf c h; simp [runLoop] at h
  | cons e rest ih =>
    intro buf c h
    rcases hiter : iterBridge e buf with ⟨evs, out⟩
    rcases iterBridge_shape e buf with ⟨b, hb, _⟩ | ⟨hb, hlast⟩ | ⟨hb, _⟩ <;>
      rw [hiter] at hb <;> simp at hb
    · subst hb
      rw [runLoop] at h ⊢
      rw [hiter] at h ⊢
      dsimp only at h ⊢
      rcases ih b c h with ⟨hc, hl⟩
      refine ⟨hc, ?_⟩
      rw [List.getLast?_append, hl]
      rfl
    · subst hb
      rw [hiter] at hlast
      rw [runLoop] at h ⊢
      rw [hiter] at h ⊢
      dsimp only at h ⊢
      cases h
      exact ⟨rfl, hlast⟩
    · subst hb
      rw [runLoop] at h
      rw [hiter] at h
      dsimp only at h
      cases h

lemma runLoop_exit_inv (l : List IterEnv) :
    ∀ (buf : Nat → Nat) (c : Nat), (runLoop buf l).2 = Outcome.exitProc c →
      c = 1 ∧ Event.closeFd ∉ (runLoop buf l).1 := by
  induction l with
  | nil => intro buf c h; simp [runLoop] at h
  | cons e rest ih =>
    intro buf c h
    rcases hiter : iterBridge e buf with ⟨evs, out⟩
    rcases iterBridge_shape e buf with ⟨b, hb, hcl⟩ | ⟨hb, _⟩ | ⟨hb, hcl⟩ <;>
      rw [hiter] at hb <;> simp at hb
    · subst hb
      rw [hiter] at hcl
      rw [runLoop] at h ⊢
      rw [hiter] at h ⊢
      dsimp only at h ⊢
      rcases ih b c h with ⟨hc, hl⟩
      refine ⟨hc, ?_⟩
      simp only [List.mem_append]
      rintro (hm | hm)
      · exact hcl hm
      · exact hl hm
    · subst hb
      rw [runLoop] at h
      rw [hiter] at h
      dsimp only at h
      cases h
    · subst hb
      rw [hiter] at hcl
      rw [runLoop] at h ⊢
      rw [hiter] at h ⊢
      dsimp only at h ⊢
      cases h
      exact ⟨rfl, hcl⟩

lemma eth_dpi_main_openFail (argc : Int) (argv : List String) (env : Env)
    (iters : List IterEnv) (h : env.openRet < 0) :
    eth_dpi_main argc argv env iters =
      ([Event.openTun, Event.logInfo], Outcome.ret (-1)) := by
  simp [eth_dpi_main, h]

lemma eth_dpi_main_ioctlFail (argc : Int) (argv : List String) (env : Env)
    (iters : List IterEnv) (h1 : ¬ env.openRet < 0) (h2 : env.ioctlRet < 0) :
    eth_dpi_main argc argv env iters =
      ([Event.openTun, Event.setIff tap_name, Event.logInfo, Event.closeFd],
       Outcome.ret (-2)) := by
  simp [eth_dpi_main, h1, h2]

lemma eth_dpi_main_loop (argc : Int) (argv : List String) (env : Env)
    (iters : List IterEnv) (h1 : ¬ env.openRet < 0) (h2 : ¬ env.ioctlRet < 0) :
    eth_dpi_main argc argv env iters =
      ([Event.openTun, Event.setIff tap_name, Event.logInfo,
        Event.setNonblock] ++ (runLoop buffer0 iters).1, (runLoop buffer0 iters).2) := by
  simp [eth_dpi_main, h1, h2]

lemma iterBridge_events_nonneg (e : IterEnv) (buf buf1 : Nat → Nat) (oevs : List Event)
    (hs : ¬ e.selRet < 0)
    (hout : (if e.selRet > 0 then outboundPhase e buf else ([], some buf)) =
      (oevs, some buf1)) :
    (iterBridge e buf).1 =
      [Event.hostDelay 1000, Event.selectPoll] ++ oevs ++ (inboundPhase e buf1).1 := by
  unfold iterBridge
  rw [if_neg hs, hout]
  dsimp only
  rcases hin : inboundPhase e buf1 with ⟨ievs, res⟩
  cases res <;> dsimp only

lemma rxValid_mem_inbound (e : IterEnv) (buf : Nat → Nat) :
    Event.rxValid ∈ (inboundPhase e buf).1 := by
  by_cases h : e.npkt > 0
  · rcases le_or_lt 0 e.writeRet with hw | hw
    · rw [inboundPhase_pkt e buf h hw]; simp
    · rw [inboundPhase_wfail e buf h hw]; simp
  · rw [inboundPhase_empty e buf h]; simp

lemma outbound_if_some (e : IterEnv) (buf : Nat → Nat)
    (hr : ¬ (e.selRet > 0 ∧ e.readRet < 0)) :
    ∃ oevs buf1, (if e.selRet > 0 then outboundPhase e buf else ([], some buf)) =
      (oevs, some buf1) := by
  by_cases hpos : e.selRet > 0
  · have hr' : ¬ e.readRet < 0 := fun h => hr ⟨hpos, h⟩
    rcases lt_trichotomy e.readRet 0 with h | h | h
    · exact absurd h hr'
    · exact ⟨_, _, by rw [if_pos hpos, outboundPhase_zero e buf h]⟩
    · exact ⟨_, _, by rw [if_pos hpos, outboundPhase_pos e buf h]⟩
  · exact ⟨[], buf, if_neg hpos⟩

lemma iterBridge_take2 (e : IterEnv) (buf : Nat → Nat) :
    (iterBridge e buf).1.take 2 = [Event.hostDelay 1000, Event.selectPoll] := by
  by_cases hs : e.selRet < 0
  · by_cases h1 : e.selErrno = EINTR
    · rw [iterBridge_transient e buf hs (Or.inl h1)]
      rfl
    · by_cases h2 : e.selErrno = EAGAIN
      · rw [iterBridge_transient e buf hs (Or.inr h2)]
        rfl
      · rw [iterBridge_pollFatal e buf hs h1 h2]
        rfl
  · by_cases hre : e.selRet > 0 ∧ e.readRet < 0
    · rw [iterBridge_readExit e buf hs hre.1 hre.2]
      rfl
    · rcases outbound_if_some e buf hre with ⟨oevs, buf1, hout⟩
      rw [iterBridge_events_nonneg e buf buf1 oevs hs hout]
      rfl

lemma runLoop_cons_take2 (e : IterEnv) (rest : List IterEnv) (buf : Nat → Nat) :
    (runLoop buf (e :: rest)).1.take 2 = [Event.hostDelay 1000, Event.selectPoll] := by
  rcases hiter : iterBridge e buf with ⟨evs, out⟩
  have h2 : evs.take 2 = [Event.hostDelay 1000, Event.selectPoll] := by
    have := iterBridge_take2 e buf
    rw [hiter] at this
    exact this
  have hlen : 2 ≤ evs.length := by
    have := congrArg List.length h2
    simp [List.length_take] at this
    omega
  rw [runLoop, hiter]
  cases out <;> dsimp only
  · rcases hr : runLoop _ rest with ⟨evs', o⟩
    dsimp only
    rw [List.take_append_of_le_length hlen, h2]
  · exact h2
  · exact h2

/-! ### Concrete environments used to exercise the theorems -/

/-- An iteration in which nothing happens: `select` reports no data and the
mailbox is empty. -/
def quietIter : IterEnv :=
  { selRet := 0, selErrno := 0, readRet := 0, readBytes := fun _ => 0,
    npkt := 0, pktLen := 0, rxData := fun _ => 0, writeRet := 0 }

/-- A startup in which both `open` and `ioctl` succeed. -/
def okEnv : Env := { openRet := 3, ioctlRet := 0 }

/-! ### The claims -/

/-- **C1** (code bug at the failing input): when the peer mailbox reports a
pending packet and `host_rx_pkt_pull` returns `pkt_len = 1501 > MTU_SIZE`,
the loop performs `host_rx_pkt_get_data(&buffer[i], i)` for every
`i < 1501` — including `i = MTU_SIZE = 1500`, one past the end of the
1500-byte `buffer` — and then writes all 1501 bytes to the TAP device,
instead of rejecting or discarding the over-long frame first. -/
theorem C1_overlong_inbound_frame_not_rejected :
    Event.rxGet MTU_SIZE ∈
      (iterBridge { quietIter with npkt := 1, pktLen := 1501 } buffer0).1 ∧
    Event.writeCall 1501 ∈
      (iterBridge { quietIter with npkt := 1, pktLen := 1501 } buffer0).1 := by
  rw [iterBridge_events_nonneg _ buffer0 buffer0 [] (by decide) (if_neg (by decide)),
    inboundPhase_pkt _ buffer0 (by decide) (by decide)]
  constructor <;> simp [MTU_SIZE]

/-- **C2 counterexample**: a read from the TAP device that returns a negative
length (here `-1`) is escalated — `fd_read` terminates the whole process with
`exit(1)` — contradicting the claim that a zero-or-negative-length read is
logged, discarded and never escalated. -/
theorem C2_negative_read_terminates :
    (iterBridge { quietIter with selRet := 1, readRet := -1 } buffer0).2 =
      IterOut.exitProc 1 := by
  rw [iterBridge_readExit _ buffer0 (by decide) (by decide) (by decide)]

/-- **C2 (amended)**: a *zero*-length read from the TAP device is logged as a
bad packet, the frame is discarded (no byte is pushed and no transfer is
initiated), and the same iteration still reaches the inbound mailbox check;
a *negative*-length read instead terminates the process via `exit(1)` inside
`fd_read`. -/
theorem C2_zero_read_logged_not_escalated (e : IterEnv) (buf : Nat → Nat)
    (hs : e.selRet > 0) :
    (e.readRet = 0 →
       Event.logBadPacket 0 ∈ (iterBridge e buf).1 ∧
       (iterBridge e buf).1.countP Event.isTxPush = 0 ∧
       Event.txInit ∉ (iterBridge e buf).1 ∧
       Event.rxValid ∈ (iterBridge e buf).1) ∧
    (e.readRet < 0 → (iterBridge e buf).2 = IterOut.exitProc 1) := by
  constructor
  · intro h0
    have hs' : ¬ e.selRet < 0 := by omega
    have hout : (if e.selRet > 0 then outboundPhase e buf else ([], some buf)) =
        ([Event.readCall MTU_SIZE, Event.logBadPacket 0],
         some (writeBuf buf 0 e.readBytes)) := by
      rw [if_pos hs, outboundPhase_zero e buf h0]
    rw [iterBridge_events_nonneg e buf _ _ hs' hout]
    refine ⟨by simp, ?_, ?_, by simp [rxValid_mem_inbound]⟩
    · simp [List.countP_cons, List.countP_append, Event.isTxPush,
        countP_isTxPush_inbound]
    · simp [txInit_not_mem_inbound]
  · intro hneg
    rw [iterBridge_readExit e buf (by omega) hs hneg]

/-- **C5 counterexample**: a poll failure whose `errno` is `EAGAIN` — which is
*not* the interrupted-wait code `EINTR` — is nevertheless retried
transparently (the iteration ends with `next` and the only events are the
delay and the poll; the descriptor is not closed and `-5` is not returned),
contradicting "for any other wait failure the condition is fatal". -/
theorem C5_eagain_poll_failure_not_fatal :
    iterBridge { quietIter with selRet := -1, selErrno := EAGAIN } buffer0 =
      ([Event.hostDelay 1000, Event.selectPoll], IterOut.next buffer0) ∧
    EAGAIN ≠ EINTR :=
  ⟨iterBridge_transient _ buffer0 (by decide) (Or.inr rfl), by decide⟩

/-- **C5 (amended)**: a failed poll with `errno` equal to `EINTR` *or*
`EAGAIN` is retried transparently with no state change (the iteration emits
only the delay and the poll and continues with the same buffer, so the
read/write steps of that iteration never run); a failed poll with any other
`errno` closes the TAP descriptor and returns `-5`. -/
theorem C5_poll_failure_dichotomy (e : IterEnv) (buf : Nat → Nat)
    (hs : e.selRet < 0) :
    ((e.selErrno = EINTR ∨ e.selErrno = EAGAIN) →
       iterBridge e buf =
         ([Event.hostDelay 1000, Event.selectPoll], IterOut.next buf)) ∧
    (e.selErrno ≠ EINTR → e.selErrno ≠ EAGAIN →
       iterBridge e buf =
         ([Event.hostDelay 1000, Event.selectPoll, Event.logInfo, Event.closeFd],
          IterOut.ret (-5))) :=
  ⟨iterBridge_transient e buf hs, iterBridge_pollFatal e buf hs⟩

/-- **C9**: when the poll fails with `EINTR` or `EAGAIN`, the whole iteration
restarts from the top: the pass contributes only `host_delay(1000)` and the
`select` call (no read, no mailbox query, no inbound servicing) and leaves
the buffer untouched, and the next pass — like every pass — begins with
`host_delay(1000)` followed by the retried poll. -/
theorem C9_transient_poll_restarts_iteration (e : IterEnv) (buf : Nat → Nat)
    (rest : List IterEnv) (hs : e.selRet < 0)
    (he : e.selErrno = EINTR ∨ e.selErrno = EAGAIN) :
    iterBridge e buf = ([Event.hostDelay 1000, Event.selectPoll], IterOut.next buf) ∧
    runLoop buf (e :: rest) =
      ([Event.hostDelay 1000, Event.selectPoll] ++ (runLoop buf rest).1,
       (runLoop buf rest).2) ∧
    (rest ≠ [] →
       (runLoop buf rest).1.take 2 = [Event.hostDelay 1000, Event.selectPoll]) := by
  refine ⟨iterBridge_transient e buf hs he, ?_, ?_⟩
  · rw [runLoop, iterBridge_transient e buf hs he]
  · intro hne
    rcases rest with _ | ⟨e', rest'⟩
    · exact absurd rfl hne
    · exact runLoop_cons_take2 e' rest' buf

/-- **C3**: in every iteration that reads a frame of length `n > 0` from the
TAP device, the trace shows exactly `n` `host_tx_data_push` calls — one per
byte, at indices `0..n-1` in increasing order — followed immediately by a
single `host_tx_transfer_init`, with the whole inbound phase (which contains
no push and no transfer-init) strictly after it; and in an iteration that
reads no frame (descriptor not readable, or a zero-length read), no push and
no transfer-init happens at all. -/
theorem C3_push_all_bytes_then_commit_once (e : IterEnv) (buf : Nat → Nat) :
    (e.selRet > 0 → 0 < e.readRet →
       (iterBridge e buf).1 =
         [Event.hostDelay 1000, Event.selectPoll, Event.readCall MTU_SIZE,
            Event.logInfo] ++
           (List.range e.readRet.toNat).map (fun i => Event.txPush (e.readBytes i)) ++
           [Event.txInit] ++
           (inboundPhase e (writeBuf buf e.readRet.toNat e.readBytes)).1 ∧
       (inboundPhase e (writeBuf buf e.readRet.toNat e.readBytes)).1.countP
           Event.isTxPush = 0 ∧
       Event.txInit ∉ (inboundPhase e (writeBuf buf e.readRet.toNat e.readBytes)).1) ∧
    (¬ (e.selRet > 0 ∧ 0 < e.readRet) →
       Event.txInit ∉ (iterBridge e buf).1 ∧
       (iterBridge e buf).1.countP Event.isTxPush = 0) := by
  constructor
  · intro hs hr
    have hout : (if e.selRet > 0 then outboundPhase e buf else ([], some buf)) =
        (Event.readCall MTU_SIZE :: Event.logInfo ::
           ((List.range e.readRet.toNat).map (fun i => Event.txPush (e.readBytes i)) ++
             [Event.txInit]),
         some (writeBuf buf e.readRet.toNat e.readBytes)) := by
      rw [if_pos hs, outboundPhase_pos e buf hr]
    refine ⟨?_, countP_isTxPush_inbound _ _, txInit_not_mem_inbound _ _⟩
    rw [iterBridge_events_nonneg e buf _ _ (by omega) hout]
    simp
  · intro h
    by_cases hs : e.selRet < 0
    · by_cases h1 : e.selErrno = EINTR
      · rw [iterBridge_transient e buf hs (Or.inl h1)]
        exact ⟨by simp, by simp [List.countP_cons, Event.isTxPush]⟩
      · by_cases h2 : e.selErrno = EAGAIN
        · rw [iterBridge_transient e buf hs (Or.inr h2)]
          exact ⟨by simp, by simp [List.countP_cons, Event.isTxPush]⟩
        · rw [iterBridge_pollFatal e buf hs h1 h2]
          exact ⟨by simp, by simp [List.countP_cons, Event.isTxPush]⟩
    · by_cases hpos : e.selRet > 0
      · have hr : ¬ 0 < e.readRet := fun hr' => h ⟨hpos, hr'⟩
        rcases lt_trichotomy e.readRet 0 with hlt | heq | hgt
        · rw [iterBridge_readExit e buf hs hpos hlt]
          exact ⟨by simp, by simp [List.countP_cons, Event.isTxPush]⟩
        · have hout : (if e.selRet > 0 then outboundPhase e buf else ([], some buf)) =
              ([Event.readCall MTU_SIZE, Event.logBadPacket 0],
               some (writeBuf buf 0 e.readBytes)) := by
            rw [if_pos hpos, outboundPhase_zero e buf heq]
          rw [iterBridge_events_nonneg e buf _ _ hs hout]
          refine ⟨by simp [txInit_not_mem_inbound], ?_⟩
          simp [List.countP_cons, List.countP_append, Event.isTxPush,
            countP_isTxPush_inbound]
        · exact absurd hgt hr
      · have hout : (if e.selRet > 0 then outboundPhase e buf else ([], some buf)) =
            ([], some buf) := if_neg hpos
        rw [iterBridge_events_nonneg e buf _ _ hs hout]
        refine ⟨by simp [txInit_not_mem_inbound], ?_⟩
        simp [List.countP_cons, List.countP_append, Event.isTxPush,
          countP_isTxPush_inbound]

/-- **C6**: in every iteration whose outbound phase does not abort the
process, if the mailbox reports `npkt ≥ 1` and the pull returns `pkt_len`
(with the `write` succeeding), the trace of the iteration ends with
`host_rx_pkt_valid`, one `host_rx_pkt_pull`, then `host_rx_pkt_get_data`
at exactly the indices `0..pkt_len-1` in increasing order, followed by one
`write` of exactly `pkt_len` bytes; the preceding outbound part of the
iteration contains no `get` and no `pull`. -/
theorem C6_inbound_pull_get_write_exact (e : IterEnv) (buf buf1 : Nat → Nat)
    (oevs : List Event) (hs : ¬ e.selRet < 0)
    (hout : (if e.selRet > 0 then outboundPhase e buf else ([], some buf)) =
      (oevs, some buf1))
    (hp : e.npkt > 0) (hw : 0 ≤ e.writeRet) :
    (iterBridge e buf).1 =
      [Event.hostDelay 1000, Event.selectPoll] ++ oevs ++
        (Event.rxValid :: Event.rxPull :: Event.logInfo ::
          ((List.range e.pktLen.toNat).map Event.rxGet ++
            [Event.writeCall e.pktLen])) ∧
    oevs.countP Event.isRxGet = 0 ∧
    Event.rxPull ∉ oevs := by
  refine ⟨?_, ?_, ?_⟩
  · rw [iterBridge_events_nonneg e buf buf1 oevs hs hout,
      inboundPhase_pkt e buf1 hp hw]
  · by_cases hpos : e.selRet > 0
    · rw [if_pos hpos] at hout
      have : oevs = (outboundPhase e buf).1 := by rw [hout]
      rw [this]
      exact countP_isRxGet_outbound e buf
    · rw [if_neg hpos] at hout
      have : oevs = [] := by
        have := congrArg Prod.fst hout
        exact this.symm
      simp [this]
  · by_cases hpos : e.selRet > 0
    · rw [if_pos hpos] at hout
      have : oevs = (outboundPhase e buf).1 := by rw [hout]
      rw [this]
      exact rxPull_not_mem_outbound e buf
    · rw [if_neg hpos] at hout
      have : oevs = [] := by
        have := congrArg Prod.fst hout
        exact this.symm
      simp [this]

lemma count_txInit_map_push (f : Nat → Nat) (n : Nat) :
    ((List.range n).map (fun i => Event.txPush (f i))).count Event.txInit = 0 := by
  rw [List.count_eq_zero]
  simp

lemma count_rxPull_map_push (f : Nat → Nat) (n : Nat) :
    ((List.range n).map (fun i => Event.txPush (f i))).count Event.rxPull = 0 := by
  rw [List.count_eq_zero]
  simp

lemma count_txInit_map_rxGet (n : Nat) :
    ((List.range n).map Event.rxGet).count Event.txInit = 0 := by
  rw [List.count_eq_zero]
  simp

lemma count_rxPull_map_rxGet (n : Nat) :
    ((List.range n).map Event.rxGet).count Event.rxPull = 0 := by
  rw [List.count_eq_zero]
  simp

/-- **C7**: in an iteration where the TAP descriptor is readable with a frame
of length `n > 0` *and* the mailbox reports a pending inbound frame (and
neither `read` nor `write` fails), exactly one outbound frame is committed
(`host_tx_transfer_init` appears exactly once) and exactly one inbound frame
is pulled (`host_rx_pkt_pull` appears exactly once), with the complete
outbound transfer strictly before the inbound transfer in the trace. -/
theorem C7_one_frame_each_direction (e : IterEnv) (buf : Nat → Nat)
    (hs : e.selRet > 0) (hr : 0 < e.readRet) (hp : e.npkt > 0)
    (hw : 0 ≤ e.writeRet) :
    (iterBridge e buf).1 =
      ([Event.hostDelay 1000, Event.selectPoll, Event.readCall MTU_SIZE,
          Event.logInfo] ++
        (List.range e.readRet.toNat).map (fun i => Event.txPush (e.readBytes i)) ++
        [Event.txInit]) ++
        (Event.rxValid :: Event.rxPull :: Event.logInfo ::
          ((List.range e.pktLen.toNat).map Event.rxGet ++
            [Event.writeCall e.pktLen])) ∧
    (iterBridge e buf).1.count Event.txInit = 1 ∧
    (iterBridge e buf).1.count Event.rxPull = 1 := by
  have hout : (if e.selRet > 0 then outboundPhase e buf else ([], some buf)) =
      (Event.readCall MTU_SIZE :: Event.logInfo ::
         ((List.range e.readRet.toNat).map (fun i => Event.txPush (e.readBytes i)) ++
           [Event.txInit]),
       some (writeBuf buf e.readRet.toNat e.readBytes)) := by
    rw [if_pos hs, outboundPhase_pos e buf hr]
  have hevs : (iterBridge e buf).1 =
      [Event.hostDelay 1000, Event.selectPoll] ++
        (Event.readCall MTU_SIZE :: Event.logInfo ::
          ((List.range e.readRet.toNat).map (fun i => Event.txPush (e.readBytes i)) ++
            [Event.txInit])) ++
        (Event.rxValid :: Event.rxPull :: Event.logInfo ::
          ((List.range e.pktLen.toNat).map Event.rxGet ++
            [Event.writeCall e.pktLen])) := by
    rw [iterBridge_events_nonneg e buf _ _ (by omega) hout,
      inboundPhase_pkt e _ hp hw]
  refine ⟨by rw [hevs]; simp, ?_, ?_⟩
  · rw [hevs]
    simp [List.count_append, List.count_cons, count_txInit_map_push,
      count_txInit_map_rxGet]
  · rw [hevs]
    simp [List.count_append, List.count_cons, count_rxPull_map_push,
      count_rxPull_map_rxGet]

/-- **C4 counterexample**: with a working startup and a first iteration whose
`read` fails (returns `-1`), the process terminates through `exit(1)` inside
`fd_read` *without* `close(tap_fd)` ever being called — refuting the claim
that every fatal condition, including read/write failures, closes the
transport handle before termination. -/
theorem C4_read_failure_exits_without_close :
    (eth_dpi_main 0 [] okEnv [{ quietIter with selRet := 1, readRet := -1 }]).2 =
      Outcome.exitProc 1 ∧
    Event.closeFd ∉
      (eth_dpi_main 0 [] okEnv [{ quietIter with selRet := 1, readRet := -1 }]).1 := by
  decide

/-- **C4 (amended)**: the interface-configuration failure (`-2`) and the
non-transient poll failure (`-5`) close the TAP descriptor, and the `close`
is the very last action before `eth_dpi_main` returns; the device-open
failure returns `-1` having never acquired a descriptor (its trace is just
the failed `open` plus the diagnostic); a read or write failure terminates
the process via `exit(1)` without the descriptor ever being closed. -/
theorem C4_close_only_at_ioctl_and_poll_failures (argc : Int) (argv : List String)
    (env : Env) (iters : List IterEnv) :
    ((eth_dpi_main argc argv env iters).2 = Outcome.ret (-2) →
       (eth_dpi_main argc argv env iters).1.getLast? = some Event.closeFd) ∧
    ((eth_dpi_main argc argv env iters).2 = Outcome.ret (-5) →
       (eth_dpi_main argc argv env iters).1.getLast? = some Event.closeFd) ∧
    (∀ c, (eth_dpi_main argc argv env iters).2 = Outcome.exitProc c →
       c = 1 ∧ Event.closeFd ∉ (eth_dpi_main argc argv env iters).1) ∧
    ((eth_dpi_main argc argv env iters).2 = Outcome.ret (-1) →
       (eth_dpi_main argc argv env iters).1 = [Event.openTun, Event.logInfo]) := by
  by_cases h1 : env.openRet < 0
  · rw [eth_dpi_main_openFail argc argv env iters h1]
    refine ⟨?_, ?_, ?_, fun _ => rfl⟩
    · intro h
      simp at h
    · intro h
      simp at h
    · intro c h
      simp at h
  · by_cases h2 : env.ioctlRet < 0
    · rw [eth_dpi_main_ioctlFail argc argv env iters h1 h2]
      refine ⟨fun _ => rfl, ?_, ?_, ?_⟩
      · intro h
        simp at h
      · intro c h
        simp at h
      · intro h
        simp at h
    · rw [eth_dpi_main_loop argc argv env iters h1 h2]
      refine ⟨?_, ?_, ?_, ?_⟩
      · intro h
        dsimp only at h
        rcases runLoop_ret_inv iters buffer0 (-2) h with ⟨hc, _⟩
        omega
      · intro h
        dsimp only at h
        rcases runLoop_ret_inv iters buffer0 (-5) h with ⟨_, hl⟩
        dsimp only
        rw [List.getLast?_append, hl]
        rfl
      · intro c h
        dsimp only at h
        rcases runLoop_exit_inv iters buffer0 c h with ⟨hc, hcl⟩
        refine ⟨hc, ?_⟩
        dsimp only
        simp only [List.mem_append]
        rintro (hm | hm)
        · simp at hm
        · exact hcl hm
      · intro h
        dsimp only at h
        rcases runLoop_ret_inv iters buffer0 (-1) h with ⟨hc, _⟩
        omega

/-- **C8**: `eth_dpi_main` never returns `0` (the post-loop clean-shutdown
return is unreachable: the loop only ends in a return or a process exit);
every value it does return is one of the three distinct negative codes, each
tied to its failure site: `-1` for the device-open failure, `-2` for the
interface-configuration failure, and `-5` (the only code producible from
inside the loop) for the poll failure. -/
theorem C8_distinct_negative_exit_codes (argc : Int) (argv : List String)
    (env : Env) (iters : List IterEnv) :
    (eth_dpi_main argc argv env iters).2 ≠ Outcome.ret 0 ∧
    (∀ c, (eth_dpi_main argc argv env iters).2 = Outcome.ret c →
       c = -1 ∨ c = -2 ∨ c = -5) ∧
    (env.openRet < 0 →
       (eth_dpi_main argc argv env iters).2 = Outcome.ret (-1)) ∧
    (¬ env.openRet < 0 → env.ioctlRet < 0 →
       (eth_dpi_main argc argv env iters).2 = Outcome.ret (-2)) ∧
    (¬ env.openRet < 0 → ¬ env.ioctlRet < 0 → ∀ c,
       (eth_dpi_main argc argv env iters).2 = Outcome.ret c → c = -5) := by
  have hcode : ∀ c, (eth_dpi_main argc argv env iters).2 = Outcome.ret c →
      c = -1 ∨ c = -2 ∨ c = -5 := by
    intro c h
    by_cases h1 : env.openRet < 0
    · rw [eth_dpi_main_openFail argc argv env iters h1] at h
      simp at h
      omega
    · by_cases h2 : env.ioctlRet < 0
      · rw [eth_dpi_main_ioctlFail argc argv env iters h1 h2] at h
        simp at h
        omega
      · rw [eth_dpi_main_loop argc argv env iters h1 h2] at h
        dsimp only at h
        rcases runLoop_ret_inv iters buffer0 c h with ⟨hc, _⟩
        omega
  refine ⟨?_, hcode, ?_, ?_, ?_⟩
  · intro h
    rcases hcode 0 h with h' | h' | h' <;> omega
  · intro h1
    rw [eth_dpi_main_openFail argc argv env iters h1]
  · intro h1 h2
    rw [eth_dpi_main_ioctlFail argc argv env iters h1 h2]
  · intro h1 h2 c h
    rw [eth_dpi_main_loop argc argv env iters h1 h2] at h
    dsimp only at h
    exact (runLoop_ret_inv iters buffer0 c h).1

/-- **C10**: the behaviour of `eth_dpi_main` is a function of the external
environment only — two runs that differ solely in `argc`/`argv` produce the
identical trace and outcome — and whenever the device is opened, the
interface it configures is always named by the fixed string `"tap0"`. -/
theorem C10_argv_independent_fixed_tap0 (argc argc2 : Int)
    (argv argv2 : List String) (env : Env) (iters : List IterEnv) :
    eth_dpi_main argc argv env iters = eth_dpi_main argc2 argv2 env iters ∧
    tap_name = "tap0" ∧
    (¬ env.openRet < 0 →
       Event.setIff "tap0" ∈ (eth_dpi_main argc argv env iters).1) := by
  refine ⟨rfl, rfl, ?_⟩
  intro h1
  by_cases h2 : env.ioctlRet < 0
  · rw [eth_dpi_main_ioctlFail argc argv env iters h1 h2]
    simp [tap_name]
  · rw [eth_dpi_main_loop argc argv env iters h1 h2]
    simp [tap_name]

/-! ### Concrete instantiations of the theorems above -/

/-- An iteration that reads a 2-byte frame and has no inbound traffic. -/
def c3iter : IterEnv := { quietIter with selRet := 1, readRet := 2 }

/-- An iteration with no outbound traffic and a pending 46-byte inbound frame. -/
def c6iter : IterEnv := { quietIter with npkt := 1, pktLen := 46 }

/-- An iteration with a 2-byte outbound frame and a 3-byte inbound frame. -/
def c7iter : IterEnv :=
  { quietIter with selRet := 1, readRet := 2, npkt := 1, pktLen := 3 }

/-- A startup in which `open` succeeds but `ioctl` fails. -/
def ioctlFailEnv : Env := { openRet := 3, ioctlRet := -1 }

theorem C2_zero_read_logged_not_escalated_witness :
    (Event.logBadPacket 0 ∈ (iterBridge { quietIter with selRet := 1 } buffer0).1 ∧
     (iterBridge { quietIter with selRet := 1 } buffer0).1.countP Event.isTxPush = 0 ∧
     Event.txInit ∉ (iterBridge { quietIter with selRet := 1 } buffer0).1 ∧
     Event.rxValid ∈ (iterBridge { quietIter with selRet := 1 } buffer0).1) ∧
    (iterBridge { quietIter with selRet := 1, readRet := -1 } buffer0).2 =
      IterOut.exitProc 1 :=
  ⟨(C2_zero_read_logged_not_escalated _ buffer0 (by decide)).1 rfl,
   (C2_zero_read_logged_not_escalated _ buffer0 (by decide)).2 (by decide)⟩

theorem C3_push_all_bytes_then_commit_once_witness :
    ((iterBridge c3iter buffer0).1 =
       [Event.hostDelay 1000, Event.selectPoll, Event.readCall MTU_SIZE,
          Event.logInfo] ++
         (List.range c3iter.readRet.toNat).map
           (fun i => Event.txPush (c3iter.readBytes i)) ++
         [Event.txInit] ++
         (inboundPhase c3iter
           (writeBuf buffer0 c3iter.readRet.toNat c3iter.readBytes)).1 ∧
     (inboundPhase c3iter
         (writeBuf buffer0 c3iter.readRet.toNat c3iter.readBytes)).1.countP
         Event.isTxPush = 0 ∧
     Event.txInit ∉
       (inboundPhase c3iter
         (writeBuf buffer0 c3iter.readRet.toNat c3iter.readBytes)).1) ∧
    (Event.txInit ∉ (iterBridge quietIter buffer0).1 ∧
     (iterBridge quietIter buffer0).1.countP Event.isTxPush = 0) :=
  ⟨(C3_push_all_bytes_then_commit_once c3iter buffer0).1 (by decide) (by decide),
   (C3_push_all_bytes_then_commit_once quietIter buffer0).2 (by decide)⟩

theorem C4_close_only_at_ioctl_and_poll_failures_witness :
    (eth_dpi_main 0 [] ioctlFailEnv []).1.getLast? = some Event.closeFd ∧
    (eth_dpi_main 0 [] okEnv
        [{ quietIter with selRet := -1, selErrno := 5 }]).1.getLast? =
      some Event.closeFd ∧
    (1 = 1 ∧ Event.closeFd ∉
      (eth_dpi_main 0 [] okEnv [{ quietIter with selRet := 1, readRet := -2 }]).1) :=
  ⟨(C4_close_only_at_ioctl_and_poll_failures 0 [] ioctlFailEnv []).1 (by decide),
   (C4_close_only_at_ioctl_and_poll_failures 0 [] okEnv
      [{ quietIter with selRet := -1, selErrno := 5 }]).2.1 (by decide),
   (C4_close_only_at_ioctl_and_poll_failures 0 [] okEnv
      [{ quietIter with selRet := 1, readRet := -2 }]).2.2.1 1 (by decide)⟩

theorem C5_poll_failure_dichotomy_witness :
    iterBridge { quietIter with selRet := -1, selErrno := EINTR } buffer0 =
      ([Event.hostDelay 1000, Event.selectPoll], IterOut.next buffer0) ∧
    iterBridge { quietIter with selRet := -1, selErrno := 5 } buffer0 =
      ([Event.hostDelay 1000, Event.selectPoll, Event.logInfo, Event.closeFd],
       IterOut.ret (-5)) :=
  ⟨(C5_poll_failure_dichotomy _ buffer0 (by decide)).1 (Or.inl rfl),
   (C5_poll_failure_dichotomy _ buffer0 (by decide)).2 (by decide) (by decide)⟩

theorem C6_inbound_pull_get_write_exact_witness :
    (iterBridge c6iter buffer0).1 =
      [Event.hostDelay 1000, Event.selectPoll] ++ ([] : List Event) ++
        (Event.rxValid :: Event.rxPull :: Event.logInfo ::
          ((List.range c6iter.pktLen.toNat).map Event.rxGet ++
            [Event.writeCall c6iter.pktLen])) ∧
    ([] : List Event).countP Event.isRxGet = 0 ∧
    Event.rxPull ∉ ([] : List Event) :=
  C6_inbound_pull_get_write_exact c6iter buffer0 buffer0 [] (by decide)
    (if_neg (by decide)) (by decide) (by decide)

theorem C7_one_frame_each_direction_witness :
    (iterBridge c7iter buffer0).1 =
      ([Event.hostDelay 1000, Event.selectPoll, Event.readCall MTU_SIZE,
          Event.logInfo] ++
        (List.range c7iter.readRet.toNat).map
          (fun i => Event.txPush (c7iter.readBytes i)) ++
        [Event.txInit]) ++
        (Event.rxValid :: Event.rxPull :: Event.logInfo ::
          ((List.range c7iter.pktLen.toNat).map Event.rxGet ++
            [Event.writeCall c7iter.pktLen])) ∧
    (iterBridge c7iter buffer0).1.count Event.txInit = 1 ∧
    (iterBridge c7iter buffer0).1.count Event.rxPull = 1 :=
  C7_one_frame_each_direction c7iter buffer0 (by decide) (by decide) (by decide)
    (by decide)

theorem C8_distinct_negative_exit_codes_witness :
    (eth_dpi_main 0 [] { openRet := -1, ioctlRet := 0 } []).2 = Outcome.ret (-1) ∧
    ((-1 : Int) = -1 ∨ (-1 : Int) = -2 ∨ (-1 : Int) = -5) :=
  ⟨(C8_distinct_negative_exit_codes 0 [] { openRet := -1, ioctlRet := 0 } []).2.2.1
     (by decide),
   (C8_distinct_negative_exit_codes 0 [] { openRet := -1, ioctlRet := 0 } []).2.1
     (-1)
     ((C8_distinct_negative_exit_codes 0 [] { openRet := -1, ioctlRet := 0 } []).2.2.1
       (by decide))⟩

theorem C9_transient_poll_restarts_iteration_witness :
    iterBridge { quietIter with selRet := -1, selErrno := EINTR } buffer0 =
      ([Event.hostDelay 1000, Event.selectPoll], IterOut.next buffer0) ∧
    runLoop buffer0 ({ quietIter with selRet := -1, selErrno := EINTR } :: [quietIter]) =
      ([Event.hostDelay 1000, Event.selectPoll] ++ (runLoop buffer0 [quietIter]).1,
       (runLoop buffer0 [quietIter]).2) ∧
    (runLoop buffer0 [quietIter]).1.take 2 =
      [Event.hostDelay 1000, Event.selectPoll] :=
  ⟨(C9_transient_poll_restarts_iteration
      { quietIter with selRet := -1, selErrno := EINTR } buffer0 [quietIter]
      (by decide) (Or.inl rfl)).1,
   (C9_transient_poll_restarts_iteration
      { quietIter with selRet := -1, selErrno := EINTR } buffer0 [quietIter]
      (by decide) (Or.inl rfl)).2.1,
   (C9_transient_poll_restarts_iteration
      { quietIter with selRet := -1, selErrno := EINTR } buffer0 [quietIter]
      (by decide) (Or.inl rfl)).2.2 (List.cons_ne_nil _ _)⟩

theorem C10_argv_independent_fixed_tap0_witness :
    eth_dpi_main 1 ["x"] okEnv [] = eth_dpi_main 2 [] okEnv [] ∧
    tap_name = "tap0" ∧
    Event.setIff "tap0" ∈ (eth_dpi_main 1 ["x"] okEnv []).1 :=
  ⟨(C10_argv_independent_fixed_tap0 1 2 ["x"] [] okEnv []).1,
   (C10_argv_independent_fixed_tap0 1 2 ["x"] [] okEnv []).2.1,
   (C10_argv_independent_fixed_tap0 1 2 ["x"] [] okEnv []).2.2 (by decide)⟩

end EthDpi
